import Mathlib

/-!
Shallow embedding of the offline chat queue / resync subsystem of the
farmer-assistant web app, together with its persistence layer.

Sources embedded (TypeScript):
- offline storage service (`setCachedData` / `getCachedData`, chat history,
  outbox queue, rewards, harvest log)
- user profile service (`getUserProfile` / `saveUserProfile`)
- the resync worker `syncOfflineMessages` in the app root component
- the online streaming send path of the AI chat component
- theme / language persistence effects.

Modelling conventions:
- `localStorage` is a finite map `String → Option LSVal`; a stored string is
  represented either as the JSON value it parses to (`LSVal.json`) or as an
  unparseable / empty raw string (`LSVal.text`).  `JSON.stringify` followed by
  `JSON.parse` is the identity on plain JSON values, so serialisation is
  embedded at the JSON-value level rather than the character level.
- `localStorage.setItem` may throw (quota); every writer takes a `Bool`
  argument telling whether the underlying write succeeds, mirroring the
  `try`/`catch` in the source that turns a failing write into a logged no-op.
- The AI backend is an oracle `σ → QueuedMessage → StreamRes × σ`: one call
  yields the finite list of streamed tokens and whether the stream completed
  normally (`ok = true`) or raised after yielding those tokens
  (`ok = false`).  Threading the oracle state `σ` makes the order of backend
  calls observable.
- TypeScript string-literal union fields (`role`, `status`) are runtime
  strings and are embedded as `String` / `Option String`.
-/

namespace AG

/-- A JSON value, the result of a successful `JSON.parse`. -/
inductive JsonVal where
  | null
  | num (n : Int)
  | str (s : String)
  | arr (xs : List JsonVal)
  | obj (kvs : List (String × JsonVal))

/-- A string held in `localStorage`: either it parses as JSON (`json v`) or it
is empty / unparseable raw text (`text s`). -/
inductive LSVal where
  | json (v : JsonVal)
  | text (s : String)

/-- The browser `localStorage`, keyed by strings. -/
def Store := String → Option LSVal

def emptyStore : Store := fun _ => none

def setItem (st : Store) (k : String) (v : LSVal) : Store :=
  fun q => if q = k then some v else st q

def removeItem (st : Store) (k : String) : Store :=
  fun q => if q = k then none else st q

def getItem (st : Store) (k : String) : Option LSVal := st k

/-- First-match field lookup in a JSON object (our encoders never emit
duplicate keys). -/
def objGet : List (String × JsonVal) → String → Option JsonVal
  | [], _ => none
  | (k, v) :: rest, key => if k = key then some v else objGet rest key

def asStr : JsonVal → Option String
  | .str s => some s
  | _ => none

/-- Reads a field that the writer serialises as either a string or `null`. -/
def asStrOrNull : JsonVal → Option (Option String)
  | .str s => some (some s)
  | .null => some none
  | _ => none

/-- The `ChatMessage` record of the source.  `role` is `"user"` or `"model"`;
`status` is `"sent"`, `"pending"` or `"failed"` when present. -/
structure ChatMessage where
  id : String
  role : String
  text : String
  filePreview : Option String := none
  fileName : Option String := none
  fileMimeType : Option String := none
  status : Option String := none
deriving DecidableEq

/-- The `QueuedMessage` record of the offline service.  The three file fields
are serialised as JSON `null` when absent (the writer assigns `null`
explicitly), unlike the optional `ChatMessage` fields which are omitted. -/
structure QueuedMessage where
  id : String
  prompt : String
  fileData : Option String
  fileName : Option String
  fileMimeType : Option String
  lang : String
deriving DecidableEq

/-- The `UserProfile` record: all fields optional, omitted when absent. -/
structure UserProfile where
  name : Option String := none
  defaultLocation : Option String := none
  language : Option String := none
  preferredUnit : Option String := none
  profileImage : Option String := none
deriving DecidableEq

def optField (key : String) : Option String → List (String × JsonVal)
  | some s => [(key, .str s)]
  | none => []

def encodeMsg (m : ChatMessage) : JsonVal :=
  .obj ([("id", .str m.id), ("role", .str m.role), ("text", .str m.text)]
    ++ optField "filePreview" m.filePreview
    ++ optField "fileName" m.fileName
    ++ optField "fileMimeType" m.fileMimeType
    ++ optField "status" m.status)

def decodeMsg (v : JsonVal) : Option ChatMessage :=
  match v with
  | .obj kvs => do
    let id ← (objGet kvs "id").bind asStr
    let role ← (objGet kvs "role").bind asStr
    let text ← (objGet kvs "text").bind asStr
    pure { id := id, role := role, text := text,
           filePreview := (objGet kvs "filePreview").bind asStr,
           fileName := (objGet kvs "fileName").bind asStr,
           fileMimeType := (objGet kvs "fileMimeType").bind asStr,
           status := (objGet kvs "status").bind asStr }
  | _ => none

def encodeMsgList (ms : List ChatMessage) : JsonVal :=
  .arr (ms.map encodeMsg)

def decodeMsgs : List JsonVal → Option (List ChatMessage)
  | [] => some []
  | v :: vs => do
    let m ← decodeMsg v
    let ms ← decodeMsgs vs
    pure (m :: ms)

def decodeMsgList : JsonVal → Option (List ChatMessage)
  | .arr xs => decodeMsgs xs
  | _ => none

def jsonOfOptStr : Option String → JsonVal
  | some s => .str s
  | none => .null

def encodeQueued (q : QueuedMessage) : JsonVal :=
  .obj [("id", .str q.id), ("prompt", .str q.prompt),
        ("fileData", jsonOfOptStr q.fileData),
        ("fileName", jsonOfOptStr q.fileName),
        ("fileMimeType", jsonOfOptStr q.fileMimeType),
        ("lang", .str q.lang)]

def decodeQueued (v : JsonVal) : Option QueuedMessage :=
  match v with
  | .obj kvs => do
    let id ← (objGet kvs "id").bind asStr
    let prompt ← (objGet kvs "prompt").bind asStr
    let fileData ← (objGet kvs "fileData").bind asStrOrNull
    let fileName ← (objGet kvs "fileName").bind asStrOrNull
    let fileMimeType ← (objGet kvs "fileMimeType").bind asStrOrNull
    let lang ← (objGet kvs "lang").bind asStr
    pure { id := id, prompt := prompt, fileData := fileData,
           fileName := fileName, fileMimeType := fileMimeType, lang := lang }
  | _ => none

def encodeQueuedList (qs : List QueuedMessage) : JsonVal :=
  .arr (qs.map encodeQueued)

def decodeQueueds : List JsonVal → Option (List QueuedMessage)
  | [] => some []
  | v :: vs => do
    let q ← decodeQueued v
    let qs ← decodeQueueds vs
    pure (q :: qs)

def decodeQueuedList : JsonVal → Option (List QueuedMessage)
  | .arr xs => decodeQueueds xs
  | _ => none

def encodeProfile (p : UserProfile) : JsonVal :=
  .obj (optField "name" p.name
    ++ optField "defaultLocation" p.defaultLocation
    ++ optField "language" p.language
    ++ optField "preferredUnit" p.preferredUnit
    ++ optField "profileImage" p.profileImage)

def decodeProfile (v : JsonVal) : Option UserProfile :=
  match v with
  | .obj kvs =>
    some { name := (objGet kvs "name").bind asStr,
           defaultLocation := (objGet kvs "defaultLocation").bind asStr,
           language := (objGet kvs "language").bind asStr,
           preferredUnit := (objGet kvs "preferredUnit").bind asStr,
           profileImage := (objGet kvs "profileImage").bind asStr }
  | _ => none

/-- The fixed key namespace of the caching layer; named `CACHE_PREFIX` in the
source. -/
def CACHE_NS : String := "ai-farmer-assistant-"

/-- Embeds `setCachedData`: wraps the data in a `{timestamp, data}` entry and
writes it under the namespaced key.  `ok = false` models the quota/unavailable
`catch` branch, where the write is a logged no-op. -/
def setCachedData (ok : Bool) (st : Store) (key now : String) (data : JsonVal) : Store :=
  if ok then
    setItem st (CACHE_NS ++ key) (.json (.obj [("timestamp", .str now), ("data", data)]))
  else st

/-- Embeds `getCachedData`: returns the parsed stored value, or `none` when
the key is absent or its content is empty / fails to parse. -/
def getCachedData (st : Store) (key : String) : Option JsonVal :=
  match getItem st (CACHE_NS ++ key) with
  | some (.json v) => some v
  | _ => none

/-- Field access `(...)?.data` on a parsed cache entry. -/
def entryData : JsonVal → Option JsonVal
  | .obj kvs => objGet kvs "data"
  | _ => none

def CHAT_HISTORY_KEY : String := "chatHistory"

def CHAT_OUTBOX_KEY : String := "chatOutbox"

/-- Embeds `getChatHistory`: the transcript stored under the history key, or
`[]` when absent/unreadable. -/
def getChatHistory (st : Store) : List ChatMessage :=
  (((getCachedData st CHAT_HISTORY_KEY).bind entryData).bind decodeMsgList).getD []

/-- Embeds `saveChatHistory`.  The cross-tab `StorageEvent` dispatch has no
effect on the store and is not modelled. -/
def saveChatHistory (ok : Bool) (st : Store) (now : String) (msgs : List ChatMessage) : Store :=
  setCachedData ok st CHAT_HISTORY_KEY now (encodeMsgList msgs)

/-- Embeds `getMessageQueue` (and the `peekAll` read inside
`addMessageToQueue`). -/
def getMessageQueue (st : Store) : List QueuedMessage :=
  (((getCachedData st CHAT_OUTBOX_KEY).bind entryData).bind decodeQueuedList).getD []

/-- Embeds `clearMessageQueue`: `localStorage.removeItem` on the outbox key. -/
def clearMessageQueue (st : Store) : Store :=
  removeItem st (CACHE_NS ++ CHAT_OUTBOX_KEY)

/-- The attached `File`'s observable metadata (`file.name`, `file.type`). -/
structure FileMeta where
  name : String
  fileType : String
deriving DecidableEq

/-- The argument record of `addMessageToQueue`. -/
structure EnqueueMsg where
  id : String
  prompt : String
  file : Option FileMeta
  lang : String
deriving DecidableEq

/-- The `QueuedMessage` that `addMessageToQueue` builds from its argument and
from the outcome `conv` of `fileToBase64` (consulted only when a file is
attached; on failure the item keeps `fileData = none`).  The `|| null`
fallbacks on `file?.name` / `file?.type` treat the empty string as absent. -/
def toQueued (msg : EnqueueMsg) (conv : Except String String) : QueuedMessage :=
  { id := msg.id, prompt := msg.prompt,
    fileData := match msg.file with
      | some _ => match conv with | .ok b64 => some b64 | .error _ => none
      | none => none,
    fileName := msg.file.bind (fun f => if f.name = "" then none else some f.name),
    fileMimeType := msg.file.bind (fun f => if f.fileType = "" then none else some f.fileType),
    lang := msg.lang }

/-- Embeds `addMessageToQueue`: reads the current outbox, appends the new
`QueuedMessage` at the end, and stores the result. -/
def addMessageToQueue (ok : Bool) (st : Store) (now : String) (msg : EnqueueMsg)
    (conv : Except String String) : Store :=
  let outbox := getMessageQueue st
  setCachedData ok st CHAT_OUTBOX_KEY now (encodeQueuedList (outbox ++ [toQueued msg conv]))

def TOTAL_POINTS_KEY : String := "rewards-totalPoints"

/-- Embeds `saveRewardsPoints`: `points.toString()` stored raw under the
namespaced key; an integer numeral string parses as a JSON number, with no
`{timestamp, data}` wrapper. -/
def saveRewardsPoints (ok : Bool) (st : Store) (points : Int) : Store :=
  if ok then setItem st (CACHE_NS ++ TOTAL_POINTS_KEY) (.json (.num points)) else st

/-- Embeds the theme persistence effect in the root component:
`localStorage.setItem('theme', theme)` with `theme` one of `"light"`/`"dark"`,
which are not JSON texts, hence stored as raw text under the bare key. -/
def saveTheme (ok : Bool) (st : Store) (theme : String) : Store :=
  if ok then setItem st "theme" (.text theme) else st

/-- Embeds the language persistence effect in the language provider:
`localStorage.setItem('language', lang)` with a bare language code such as
`"en"`, stored as raw text under the bare key. -/
def saveLanguage (ok : Bool) (st : Store) (lng : String) : Store :=
  if ok then setItem st "language" (.text lng) else st

/-- The literal profile key of the source (`userProfileService`). -/
def PROFILE_KEY : String := "ai-farmer-assistant-userProfile"

/-- Embeds `getUserProfile`: parse the stored profile, `none` when absent or
unparseable. -/
def getUserProfile (st : Store) : Option UserProfile :=
  match getItem st PROFILE_KEY with
  | some (.json v) => decodeProfile v
  | _ => none

def emptyProfile : UserProfile := {}

/-- The object spread `{...existingProfile, ...profile}`: a field present in
the argument overrides, an absent field keeps the stored value. -/
def mergeProfile (e p : UserProfile) : UserProfile :=
  { name := match p.name with | some v => some v | none => e.name,
    defaultLocation := match p.defaultLocation with | some v => some v | none => e.defaultLocation,
    language := match p.language with | some v => some v | none => e.language,
    preferredUnit := match p.preferredUnit with | some v => some v | none => e.preferredUnit,
    profileImage := match p.profileImage with | some v => some v | none => e.profileImage }

/-- Embeds `saveUserProfile`: merge into the previously stored profile
(`{}` when none) and overwrite.  `ok = false` is the quota `catch` no-op. -/
def saveUserProfile (ok : Bool) (st : Store) (p : UserProfile) : Store :=
  let existing := (getUserProfile st).getD emptyProfile
  let np := mergeProfile existing p
  if ok then setItem st PROFILE_KEY (.json (encodeProfile np)) else st

/-- One backend stream for one queued item: the finite list of yielded tokens,
and whether the stream completed normally (`ok = true`) or the `for await`
loop raised after those tokens (`ok = false`; `chunks = []` with `ok = false`
also covers a failure before the first token, e.g. in `base64ToFile` or when
opening the stream). -/
structure StreamRes where
  chunks : List String
  ok : Bool
deriving DecidableEq

/-- The AI backend as a stateful oracle: calling it consumes one request and
advances the oracle state, which makes the order of calls observable. -/
def Backend (σ : Type) : Type :=
  σ → QueuedMessage → StreamRes × σ

/-- JavaScript `Array.prototype.findIndex` (first match), returning `none` for
the `-1` case. -/
def findIdx : List ChatMessage → (ChatMessage → Bool) → Option Nat
  | [], _ => none
  | m :: ms, p => if p m then some 0 else (findIdx ms p).map (· + 1)

/-- In-place update of the element at an index (out-of-range is a no-op). -/
def modifyAt : List ChatMessage → Nat → (ChatMessage → ChatMessage) → List ChatMessage
  | [], _, _ => []
  | m :: ms, 0, f => f m :: ms
  | m :: ms, i + 1, f => m :: modifyAt ms i f

/-- Mutation `lastMessage.text = fullResponse` of the last list element. -/
def setLastText : List ChatMessage → String → List ChatMessage
  | [], _ => []
  | [m], t => [{ m with text := t }]
  | m :: ms, t => m :: setLastText ms t

/-- The `for await` loop body of `syncOfflineMessages`: per token, extend
`fullResponse`; on the first token push a fresh empty model message; then, if
the last transcript element is model-role, overwrite its text with the
accumulated response and persist the whole transcript. -/
def syncChunks (qid now : String) :
    Store → List ChatMessage → String → Bool → List String → Store × List ChatMessage
  | st, hist, _, _, [] => (st, hist)
  | st, hist, fullResponse, firstChunk, c :: rest =>
    let fullResponse := fullResponse ++ c
    let hist := if firstChunk
      then hist ++ [{ id := qid ++ "-model", role := "model", text := "" }]
      else hist
    match hist.getLast? with
    | some last =>
      if last.role = "model" then
        let hist := setLastText hist fullResponse
        syncChunks qid now (saveChatHistory true st now hist) hist fullResponse false rest
      else
        syncChunks qid now st hist fullResponse false rest
    | none => syncChunks qid now st hist fullResponse false rest

/-- The per-item body of the resync loop: locate the pending user message by
id, consume the item's stream (partial updates stand even on error), then set
the user message's status to `sent` on normal completion or `failed` on error.
The worker's own saves are modelled with the storage write succeeding. -/
def processQueuedMessage (backend : Backend σ) (now : String) (o : σ) (st : Store)
    (hist : List ChatMessage) (qm : QueuedMessage) : σ × Store × List ChatMessage :=
  let userMessageIndex := findIdx hist (fun m => m.id == qm.id)
  let call := backend o qm
  let res := call.1
  let sc := syncChunks qm.id now st hist "" true res.chunks
  let hist' := match userMessageIndex with
    | some i => modifyAt sc.2 i (fun m => { m with status := some (if res.ok then "sent" else "failed") })
    | none => sc.2
  (call.2, sc.1, hist')

/-- The `for (const queuedMessage of queue)` loop: items strictly in list
order, each item's stream fully consumed (or failed) before the next starts. -/
def drainQueue (backend : Backend σ) (now : String) :
    σ → Store → List ChatMessage → List QueuedMessage → σ × Store × List ChatMessage
  | o, st, hist, [] => (o, st, hist)
  | o, st, hist, qm :: rest =>
    let pr := processQueuedMessage backend now o st hist qm
    drainQueue backend now pr.1 pr.2.1 pr.2.2 rest

/-- Embeds `syncOfflineMessages`.  Arguments mirror the module state it reads:
the re-entrancy flag `isSyncing`, the connectivity flag `isOnline`, the store,
and the backend oracle state.  Returns the final flag, store and oracle state.
When the guard fires the call returns immediately with everything untouched;
otherwise it reads the queue, drains it, persists the final transcript once
more and unconditionally clears the outbox. -/
def syncOfflineMessages (backend : Backend σ) (isOnline : Bool) (now : String)
    (isSyncing : Bool) (st : Store) (o : σ) : Bool × Store × σ :=
  if isSyncing || !isOnline then (isSyncing, st, o)
  else
    let queue := getMessageQueue st
    if queue.length = 0 then (false, st, o)
    else
      let hist := getChatHistory st
      let dr := drainQueue backend now o st hist queue
      let st2 := saveChatHistory true dr.2.1 now dr.2.2
      (false, clearMessageQueue st2, dr.1)

/-- The streaming loop of the interactive (online) send path in the chat
component: on the first token push a fresh empty model message and persist;
per token extend `fullResponse`, overwrite the last element's text when it is
model-role, and persist on every increment. -/
def sendChunksOnline (msgId now : String) :
    Store → List ChatMessage → String → Bool → List String → Store × List ChatMessage
  | st, msgs, _, _, [] => (st, msgs)
  | st, msgs, fullResponse, firstChunkReceived, c :: rest =>
    let (st, msgs) :=
      if firstChunkReceived then (st, msgs)
      else
        let m2 := msgs ++ [{ id := msgId ++ "-model", role := "model", text := "" }]
        (saveChatHistory true st now m2, m2)
    let fullResponse := fullResponse ++ c
    let msgs := match msgs.getLast? with
      | some last => if last.role = "model" then setLastText msgs fullResponse else msgs
      | none => msgs
    sendChunksOnline msgId now (saveChatHistory true st now msgs) msgs fullResponse true rest

/-- The guard `!prompt.trim()`: the prompt trims to the empty string exactly
when every character is whitespace. -/
def isBlank (s : String) : Bool :=
  s.data.all Char.isWhitespace

/-- Embeds the online, file-free path of the chat component's `sendMessage`:
guard on an all-whitespace prompt, append the user message with status
`sent`, persist, then stream the reply.  The `catch` of the streaming loop
only surfaces an error banner and leaves transcript and store untouched, so a
stream that completes after `chunks` is modelled by the token list alone. -/
def sendMessageOnline (st : Store) (now : String) (messages : List ChatMessage)
    (msgId prompt : String) (chunks : List String) : Store × List ChatMessage :=
  if isBlank prompt then (st, messages)
  else
    let userMessage : ChatMessage := { id := msgId, role := "user", text := prompt, status := some "sent" }
    let newMessages := messages ++ [userMessage]
    let st := saveChatHistory true st now newMessages
    sendChunksOnline msgId now st newMessages "" false chunks

/-- A recording backend: answers according to `f` and logs the id of every
request in call order, making the processing order observable. -/
def recBackend (f : QueuedMessage → StreamRes) : Backend (List String) :=
  fun log qm => (f qm, log ++ [qm.id])

/-! ### Observation helpers and concrete scenarios -/

/-- A stored value has the `{timestamp, data}` cache-entry shape. -/
def isWrappedEntry : LSVal → Bool
  | .json (.obj kvs) => (objGet kvs "timestamp").isSome && (objGet kvs "data").isSome
  | _ => false

/-- The value under key `k` exists and has the timestamp-wrapper shape. -/
def wrappedAt (st : Store) (k : String) : Bool :=
  match getItem st k with
  | some v => isWrappedEntry v
  | none => false

/-- The raw (non-JSON) text stored under key `k`, if any. -/
def storedTextAt (st : Store) (k : String) : Option String :=
  match getItem st k with
  | some (.text s) => some s
  | _ => none

/-- The transcript element directly after the user message with id `uid` is
that message's own model reply. -/
def followedByModelReply (hist : List ChatMessage) (uid : String) : Bool :=
  match findIdx hist (fun m => m.id == uid) with
  | some i =>
    match hist[i + 1]? with
    | some m => m.role == "model" && m.id == uid ++ "-model"
    | none => false
  | none => false

/-- A fixed write timestamp for the concrete scenarios. -/
def t0 : String := "2026-02-03T04:05:06.000Z"

/-- Store state after two offline sends: user messages `"a"` (`"hello"`) then
`"b"` (`"status?"`) appended to the transcript as `pending` and enqueued in
that order, exactly as the offline branch of `sendMessage` does. -/
def c1Store : Store :=
  let s1 := saveChatHistory true emptyStore t0
    [{ id := "a", role := "user", text := "hello", status := some "pending" }]
  let s2 := addMessageToQueue true s1 t0
    { id := "a", prompt := "hello", file := none, lang := "en" } (.ok "")
  let s3 := saveChatHistory true s2 t0
    [{ id := "a", role := "user", text := "hello", status := some "pending" },
     { id := "b", role := "user", text := "status?", status := some "pending" }]
  addMessageToQueue true s3 t0
    { id := "b", prompt := "status?", file := none, lang := "en" } (.ok "")

/-- Backend for the C1 scenario: answers `"a"` successfully with one token and
fails `"b"` before yielding anything. -/
def c1Backend : Backend Unit := fun u qm =>
  (if qm.id = "a" then { chunks := ["Hi there!"], ok := true }
   else { chunks := [], ok := false }, u)

/-- The store after the C1 drain pass. -/
def c1Final : Store := (syncOfflineMessages c1Backend true t0 false c1Store ()).2.1

/-- Store state with one pending user message `"m1"` (`"hi"`) queued offline. -/
def c4Store : Store :=
  addMessageToQueue true
    (saveChatHistory true emptyStore t0
      [{ id := "m1", role := "user", text := "hi", status := some "pending" }])
    t0 { id := "m1", prompt := "hi", file := none, lang := "en" } (.ok "")

/-- Backend yielding the two tokens of the C4 scenario, completing normally. -/
def c4Backend : Backend Unit := fun u _ => ({ chunks := ["Hel", "lo!"], ok := true }, u)

/-- The store after the C4 drain pass. -/
def c4Final : Store := (syncOfflineMessages c4Backend true t0 false c4Store ()).2.1

/-- Concrete enqueue argument for the C7 witness: a message with an attached
file whose base64 conversion fails. -/
def c7Msg : EnqueueMsg :=
  { id := "m1", prompt := "hi", file := some { name := "photo.png", fileType := "image/png" },
    lang := "en" }

/-- Concrete profile store for the C10 witness: a profile with a name and a
default location already saved. -/
def c10St : Store :=
  saveUserProfile true emptyStore { name := some "Asha", defaultLocation := some "Pune" }

/-- Concrete update argument for the C10 witness: only the language field is
present. -/
def c10P : UserProfile := { language := some "hi" }

/-- The key starts with the fixed cache namespace. -/
def hasNsKey (k : String) : Bool :=
  List.isPrefixOf CACHE_NS.data k.data

/-- Store state for the C9 scenario: one pending user message in the
transcript and its queued counterpart in the outbox, built through the same
writers the offline send path uses. -/
def c9Store (uid prompt lng now : String) : Store :=
  addMessageToQueue true
    (saveChatHistory true emptyStore now
      [{ id := uid, role := "user", text := prompt, status := some "pending" }])
    now { id := uid, prompt := prompt, file := none, lang := lng } (.ok "")

/-- Backend for the C9 scenario: yields `c :: cs` and then raises. -/
def c9Backend (c : String) (cs : List String) : Backend Unit :=
  fun x _ => ({ chunks := c :: cs, ok := false }, x)

/-- The store after the C9 drain pass. -/
def c9Final (uid prompt lng now c : String) (cs : List String) : Store :=
  (syncOfflineMessages (c9Backend c cs) true now false (c9Store uid prompt lng now) ()).2.1

/-! ### Serialisation round-trip lemmas -/

theorem decodeMsg_encodeMsg (m : ChatMessage) : decodeMsg (encodeMsg m) = some m := by
  cases m with
  | mk id role text filePreview fileName fileMimeType status =>
    cases filePreview <;> cases fileName <;> cases fileMimeType <;> cases status <;> rfl

theorem decodeMsgList_encodeMsgList (ms : List ChatMessage) :
    decodeMsgList (encodeMsgList ms) = some ms := by
  induction ms with
  | nil => rfl
  | cons m rest ih =>
    simp only [decodeMsgList, encodeMsgList] at ih ⊢
    simp [decodeMsgs, decodeMsg_encodeMsg, ih]

theorem decodeQueued_encodeQueued (q : QueuedMessage) :
    decodeQueued (encodeQueued q) = some q := by
  cases q with
  | mk id prompt fileData fileName fileMimeType lang =>
    cases fileData <;> cases fileName <;> cases fileMimeType <;> rfl

theorem decodeQueuedList_encodeQueuedList (qs : List QueuedMessage) :
    decodeQueuedList (encodeQueuedList qs) = some qs := by
  induction qs with
  | nil => rfl
  | cons q rest ih =>
    simp only [decodeQueuedList, encodeQueuedList] at ih ⊢
    simp [decodeQueueds, decodeQueued_encodeQueued, ih]

theorem decodeProfile_encodeProfile (p : UserProfile) :
    decodeProfile (encodeProfile p) = some p := by
  cases p with
  | mk name defaultLocation language preferredUnit profileImage =>
    cases name <;> cases defaultLocation <;> cases language <;>
      cases preferredUnit <;> cases profileImage <;> rfl

/-! ### Store lemmas -/

theorem getItem_setItem_self (st : Store) (k : String) (v : LSVal) :
    getItem (setItem st k v) k = some v := by
  simp [getItem, setItem]

theorem getCachedData_setCachedData_self (st : Store) (key now : String) (data : JsonVal) :
    getCachedData (setCachedData true st key now data) key
      = some (.obj [("timestamp", .str now), ("data", data)]) := by
  simp [getCachedData, setCachedData, getItem, setItem]

theorem getChatHistory_saveChatHistory (st : Store) (now : String) (msgs : List ChatMessage) :
    getChatHistory (saveChatHistory true st now msgs) = msgs := by
  simp [getChatHistory, saveChatHistory, getCachedData_setCachedData_self, entryData, objGet,
    decodeMsgList_encodeMsgList]

theorem getMessageQueue_setOutbox (st : Store) (now : String) (qs : List QueuedMessage) :
    getMessageQueue (setCachedData true st CHAT_OUTBOX_KEY now (encodeQueuedList qs)) = qs := by
  simp [getMessageQueue, getCachedData_setCachedData_self, entryData, objGet,
    decodeQueuedList_encodeQueuedList]

theorem getMessageQueue_addMessageToQueue (st : Store) (now : String) (msg : EnqueueMsg)
    (conv : Except String String) :
    getMessageQueue (addMessageToQueue true st now msg conv)
      = getMessageQueue st ++ [toQueued msg conv] := by
  unfold addMessageToQueue
  exact getMessageQueue_setOutbox st now (getMessageQueue st ++ [toQueued msg conv])

theorem getMessageQueue_saveChatHistory (ok : Bool) (st : Store) (now : String)
    (msgs : List ChatMessage) :
    getMessageQueue (saveChatHistory ok st now msgs) = getMessageQueue st := by
  cases ok <;> rfl

theorem getChatHistory_addMessageToQueue (ok : Bool) (st : Store) (now : String)
    (msg : EnqueueMsg) (conv : Except String String) :
    getChatHistory (addMessageToQueue ok st now msg conv) = getChatHistory st := by
  cases ok <;> rfl

theorem getChatHistory_clearMessageQueue (st : Store) :
    getChatHistory (clearMessageQueue st) = getChatHistory st := rfl

theorem getMessageQueue_clearMessageQueue (st : Store) :
    getMessageQueue (clearMessageQueue st) = [] := rfl

theorem getMessageQueue_emptyStore : getMessageQueue emptyStore = [] := rfl

theorem getChatHistory_emptyStore : getChatHistory emptyStore = [] := rfl

/-! ### Drain lemmas -/

theorem setLastText_append (h0 : List ChatMessage) (m : ChatMessage) (t : String) :
    setLastText (h0 ++ [m]) t = h0 ++ [{ m with text := t }] := by
  induction h0 with
  | nil => rfl
  | cons a h0 ih =>
    cases h0 with
    | nil => rfl
    | cons b h0' =>
      simp only [List.cons_append, setLastText] at ih ⊢
      exact congrArg (a :: ·) ih

theorem syncChunks_snd_model (qid now : String) :
    ∀ (cs : List String) (st : Store) (h0 : List ChatMessage) (m : ChatMessage) (acc : String),
    m.role = "model" →
    (syncChunks qid now st (h0 ++ [m]) acc false cs).2
      = h0 ++ [if cs = [] then m
               else { m with text := cs.foldl (fun a b => a ++ b) acc }] := by
  intro cs
  induction cs with
  | nil =>
    intro st h0 m acc hm
    simp [syncChunks]
  | cons c cs ih =>
    intro st h0 m acc hm
    simp only [syncChunks, Bool.false_eq_true, if_false, List.getLast?_concat, hm, if_pos,
      setLastText_append]
    rw [ih _ _ { m with role := "model", text := acc ++ c } (acc ++ c) rfl]
    cases cs with
    | nil => simp [hm]
    | cons d cs' => simp [hm]

theorem syncChunks_snd_first (qid now : String) (st : Store) (hist : List ChatMessage)
    (acc c : String) (cs : List String) :
    (syncChunks qid now st hist acc true (c :: cs)).2
      = hist ++ [{ id := qid ++ "-model", role := "model",
                   text := cs.foldl (fun a b => a ++ b) (acc ++ c) }] := by
  simp only [syncChunks, if_pos, List.getLast?_concat, setLastText_append]
  rw [syncChunks_snd_model qid now cs _ hist
    { id := qid ++ "-model", role := "model", text := acc ++ c } (acc ++ c) rfl]
  cases cs with
  | nil => simp
  | cons d cs' => simp

theorem processQueuedMessage_fst (f : QueuedMessage → StreamRes) (now : String)
    (o : List String) (st : Store) (hist : List ChatMessage) (qm : QueuedMessage) :
    (processQueuedMessage (recBackend f) now o st hist qm).1 = o ++ [qm.id] := rfl

theorem drainQueue_fst (f : QueuedMessage → StreamRes) (now : String) :
    ∀ (q : List QueuedMessage) (o : List String) (st : Store) (hist : List ChatMessage),
    (drainQueue (recBackend f) now o st hist q).1 = o ++ q.map (fun x => x.id) := by
  intro q
  induction q with
  | nil => intro o st hist; simp [drainQueue]
  | cons qm rest ih =>
    intro o st hist
    simp only [drainQueue]
    rw [ih, processQueuedMessage_fst]
    simp

/-! ### Claim theorems -/

/-- C1, counterexample: in the two-message scenario (ids `"a"` then `"b"`,
`"a"` answered successfully, `"b"` failed) the drain appends `"a"`'s model
reply at the end of the transcript, so the element directly after message
`"a"` is the failed user message `"b"`, not `"a"`'s model reply: the claimed
final transcript shape (message `"a"` followed by its model reply) does not
hold at this concrete input. -/
theorem c1_scenario_counterexample :
    followedByModelReply (getChatHistory c1Final) "a" = false
    ∧ getChatHistory c1Final =
        [{ id := "a", role := "user", text := "hello", status := some "sent" },
         { id := "b", role := "user", text := "status?", status := some "failed" },
         { id := "a-model", role := "model", text := "Hi there!" }] := by
  constructor
  · rfl
  · rfl

/-- C1, amended: after the drain pass, message `"a"` has status `"sent"` and
message `"b"` has status `"failed"` with no model reply of its own; `"a"`'s
model reply is present but appended at the end of the transcript (after
`"b"`) rather than directly after `"a"`; the outbox queue is empty. -/
theorem c1_scenario_amended :
    getChatHistory c1Final =
      [{ id := "a", role := "user", text := "hello", status := some "sent" },
       { id := "b", role := "user", text := "status?", status := some "failed" },
       { id := "a-model", role := "model", text := "Hi there!" }]
    ∧ getMessageQueue c1Final = [] := by
  constructor
  · rfl
  · rfl

/-- C2: a resync invocation that arrives while a drain is already in progress
(re-entrancy flag set) returns immediately: the store is untouched (no
transcript write, no queue clear) and the backend oracle state is untouched
(no backend call, hence no second drain pass). -/
theorem c2_reentrancy_guard {σ : Type} (backend : Backend σ) (isOnline : Bool)
    (now : String) (st : Store) (o : σ) :
    syncOfflineMessages backend isOnline now true st o = (true, st, o) := by
  simp [syncOfflineMessages]

/-- C4: a backend stream yielding the tokens `["Hel", "lo!"]` for a single
prompt produces exactly one model-role message whose text is `"Hello!"`,
both on the resync path and on the interactive online send path. -/
theorem c4_single_model_message :
    (getChatHistory c4Final).filter (fun m => m.role == "model")
      = [{ id := "m1-model", role := "model", text := "Hello!" }]
    ∧ (sendMessageOnline emptyStore t0 [] "m2" "hi" ["Hel", "lo!"]).2.filter
        (fun m => m.role == "model")
      = [{ id := "m2-model", role := "model", text := "Hello!" }] := by
  constructor
  · rfl
  · rfl

/-- C6: saving a transcript and reloading it with no intervening writes yields
the same message list (the storage write itself succeeding). -/
theorem c6_transcript_roundtrip (st : Store) (now : String) (msgs : List ChatMessage) :
    getChatHistory (saveChatHistory true st now msgs) = msgs :=
  getChatHistory_saveChatHistory st now msgs

theorem getMessageQueue_foldl_enqueue (now : String)
    (reqs : List (EnqueueMsg × Except String String)) :
    ∀ st0 : Store,
    getMessageQueue (reqs.foldl (fun s r => addMessageToQueue true s now r.1 r.2) st0)
      = getMessageQueue st0 ++ reqs.map (fun r => toQueued r.1 r.2) := by
  induction reqs with
  | nil => intro st0; simp
  | cons r rest ih =>
    intro st0
    simp only [List.foldl_cons, List.map_cons]
    rw [ih, getMessageQueue_addMessageToQueue]
    simp

theorem syncOfflineMessages_log (f : QueuedMessage → StreamRes) (now : String) (st : Store) :
    (syncOfflineMessages (recBackend f) true now false st ([] : List String)).2.2
      = (getMessageQueue st).map (fun q => q.id) := by
  by_cases h : (getMessageQueue st).length = 0
  · have hq : getMessageQueue st = [] := List.length_eq_zero.mp h
    simp [syncOfflineMessages, h, hq]
  · simp [syncOfflineMessages, h, drainQueue_fst]

/-- C3: enqueueing appends to the end of the stored queue, and one drain pass
after a sequence of enqueues calls the backend once per queued item in
exactly enqueue (FIFO) order — the recording backend's log equals the queue's
ids in order, for every answer pattern `f` (item n's stream completes or
fails before item n+1 starts, by the sequential recursion of the drain). -/
theorem c3_fifo_order (st0 : Store) (reqs : List (EnqueueMsg × Except String String))
    (f : QueuedMessage → StreamRes) (now : String) :
    getMessageQueue (reqs.foldl (fun s r => addMessageToQueue true s now r.1 r.2) st0)
      = getMessageQueue st0 ++ reqs.map (fun r => toQueued r.1 r.2)
    ∧ (syncOfflineMessages (recBackend f) true now false
          (reqs.foldl (fun s r => addMessageToQueue true s now r.1 r.2) st0)
          ([] : List String)).2.2
      = (getMessageQueue st0 ++ reqs.map (fun r => toQueued r.1 r.2)).map (fun q => q.id) := by
  constructor
  · exact getMessageQueue_foldl_enqueue now reqs st0
  · rw [syncOfflineMessages_log, getMessageQueue_foldl_enqueue]

theorem isPrefixOf_append_self {α : Type} [BEq α] [LawfulBEq α] :
    ∀ (l1 l2 : List α), List.isPrefixOf l1 (l1 ++ l2) = true := by
  intro l1
  induction l1 with
  | nil => intro l2; simp
  | cons a as ih => intro l2; simp [List.isPrefixOf, ih]

theorem hasNsKey_append (key : String) : hasNsKey (CACHE_NS ++ key) = true := by
  show List.isPrefixOf CACHE_NS.data (CACHE_NS ++ key).data = true
  have h : (CACHE_NS ++ key).data = CACHE_NS.data ++ key.data := rfl
  rw [h]
  exact isPrefixOf_append_self _ _

theorem objGet_optField_ne (k key : String) (f : Option String)
    (rest : List (String × JsonVal)) (h : ¬ (k = key)) :
    objGet (optField k f ++ rest) key = objGet rest key := by
  cases f <;> simp [optField, objGet, h]

theorem objGet_optField_ne_nil (k key : String) (f : Option String) (h : ¬ (k = key)) :
    objGet (optField k f) key = none := by
  cases f <;> simp [optField, objGet, h]

/-- C5, counterexample: the theme preference is persisted by the root
component under the bare key `"theme"` as a raw string — the key does not
carry the fixed namespace and the value has no JSON timestamp wrapper, so not
every persisted value is namespaced and wrapped. -/
theorem c5_layout_counterexample :
    storedTextAt (saveTheme true emptyStore "dark") "theme" = some "dark"
    ∧ hasNsKey "theme" = false
    ∧ wrappedAt (saveTheme true emptyStore "dark") "theme" = false := by
  exact ⟨rfl, rfl, rfl⟩

/-- C5, amended: values persisted through the caching layer (`setCachedData`:
transcript, outbox, harvest log, feature caches) land under the fixed
namespace with a `{timestamp, data}` wrapper, and the reward point total is
stored under the namespace as a plain integer string without the wrapper; but
the theme and language preferences are stored under the bare, un-namespaced
keys `"theme"` and `"language"` as raw strings without the wrapper, and the
user profile, though under a namespace-named key, is stored without the
timestamp wrapper. -/
theorem c5_layout_amended :
    (∀ (st : Store) (key now : String) (data : JsonVal),
        wrappedAt (setCachedData true st key now data) (CACHE_NS ++ key) = true
        ∧ hasNsKey (CACHE_NS ++ key) = true)
    ∧ (∀ (st : Store) (th : String),
        storedTextAt (saveTheme true st th) "theme" = some th
        ∧ wrappedAt (saveTheme true st th) "theme" = false)
    ∧ (∀ (st : Store) (lng : String),
        storedTextAt (saveLanguage true st lng) "language" = some lng
        ∧ wrappedAt (saveLanguage true st lng) "language" = false)
    ∧ hasNsKey "theme" = false
    ∧ hasNsKey "language" = false
    ∧ hasNsKey PROFILE_KEY = true
    ∧ (∀ (st : Store) (p : UserProfile),
        wrappedAt (saveUserProfile true st p) PROFILE_KEY = false)
    ∧ (∀ (st : Store) (n : Int),
        wrappedAt (saveRewardsPoints true st n) (CACHE_NS ++ TOTAL_POINTS_KEY) = false) := by
  refine ⟨?_, ?_, ?_, rfl, rfl, rfl, ?_, ?_⟩
  · intro st key now data
    refine ⟨?_, hasNsKey_append key⟩
    simp [wrappedAt, setCachedData, setItem, getItem, isWrappedEntry, objGet]
  · intro st th
    exact ⟨rfl, rfl⟩
  · intro st lng
    exact ⟨rfl, rfl⟩
  · intro st p
    simp [wrappedAt, saveUserProfile, setItem, getItem, isWrappedEntry, encodeProfile,
      objGet_optField_ne, objGet_optField_ne_nil, objGet]
  · intro st n
    rfl

/-- C7: when base64 conversion of the attached file fails, the message is
still enqueued (appended at the end of the stored queue) as a `QueuedMessage`
with `fileData = none`, keeping only the file's name and MIME type; the
enqueue never rejects or drops the item. -/
theorem c7_degraded_enqueue (st : Store) (now : String) (msg : EnqueueMsg)
    (f : FileMeta) (e : String) (hfile : msg.file = some f) :
    getMessageQueue (addMessageToQueue true st now msg (.error e))
      = getMessageQueue st
        ++ [{ id := msg.id, prompt := msg.prompt, fileData := none,
              fileName := if f.name = "" then none else some f.name,
              fileMimeType := if f.fileType = "" then none else some f.fileType,
              lang := msg.lang }] := by
  rw [getMessageQueue_addMessageToQueue]
  simp [toQueued, hfile]

/-- Witness for C7 at a concrete input: a failed conversion of an attached
`photo.png` still lands in the queue, text-only. -/
theorem c7_degraded_enqueue_witness :
    getMessageQueue (addMessageToQueue true emptyStore t0 c7Msg (.error "conversion failed"))
      = [{ id := "m1", prompt := "hi", fileData := none, fileName := some "photo.png",
           fileMimeType := some "image/png", lang := "en" }] := by
  have h := c7_degraded_enqueue emptyStore t0 c7Msg
    { name := "photo.png", fileType := "image/png" } "conversion failed" rfl
  simpa [getMessageQueue_emptyStore, c7Msg] using h

/-- C8: the cache reader returns the absence indicator `none` both when the
key was never written and when the stored content is raw text that fails to
parse; the two cases are indistinguishable to the caller and no exception is
involved (the reader is a total function into `Option`). -/
theorem c8_cache_miss_behavior (st : Store) (key : String) :
    (getItem st (CACHE_NS ++ key) = none → getCachedData st key = none)
    ∧ (∀ s, getItem st (CACHE_NS ++ key) = some (.text s) → getCachedData st key = none) := by
  constructor
  · intro h
    simp [getCachedData, h]
  · intro s h
    simp [getCachedData, h]

/-- Witness for C8 at concrete inputs: a never-written key and a key holding
unparseable text both read back as `none`. -/
theorem c8_cache_miss_behavior_witness :
    getCachedData emptyStore "neverWritten" = none
    ∧ getCachedData (setItem emptyStore (CACHE_NS ++ "bad") (.text "not json")) "bad" = none :=
  ⟨(c8_cache_miss_behavior emptyStore "neverWritten").1 rfl,
   (c8_cache_miss_behavior _ "bad").2 "not json" rfl⟩

/-- C10: saving a profile merges the argument into the previously stored
profile: the stored result is exactly the merge, and every field absent from
the argument keeps its previously stored value. -/
theorem c10_profile_merge (st : Store) (p : UserProfile) :
    getUserProfile (saveUserProfile true st p)
        = some (mergeProfile ((getUserProfile st).getD emptyProfile) p)
    ∧ (p.name = none →
        (mergeProfile ((getUserProfile st).getD emptyProfile) p).name
          = ((getUserProfile st).getD emptyProfile).name)
    ∧ (p.defaultLocation = none →
        (mergeProfile ((getUserProfile st).getD emptyProfile) p).defaultLocation
          = ((getUserProfile st).getD emptyProfile).defaultLocation)
    ∧ (p.language = none →
        (mergeProfile ((getUserProfile st).getD emptyProfile) p).language
          = ((getUserProfile st).getD emptyProfile).language)
    ∧ (p.preferredUnit = none →
        (mergeProfile ((getUserProfile st).getD emptyProfile) p).preferredUnit
          = ((getUserProfile st).getD emptyProfile).preferredUnit)
    ∧ (p.profileImage = none →
        (mergeProfile ((getUserProfile st).getD emptyProfile) p).profileImage
          = ((getUserProfile st).getD emptyProfile).profileImage) := by
  refine ⟨?_, ?_, ?_, ?_, ?_, ?_⟩
  · simp [saveUserProfile, getUserProfile, getItem, setItem, decodeProfile_encodeProfile]
  all_goals intro h
  all_goals simp [mergeProfile, h]

theorem c9_queue_state (uid prompt lng now : String) :
    getMessageQueue (c9Store uid prompt lng now)
      = [{ id := uid, prompt := prompt, fileData := none, fileName := none,
           fileMimeType := none, lang := lng }] := by
  unfold c9Store
  rw [getMessageQueue_addMessageToQueue, getMessageQueue_saveChatHistory,
    getMessageQueue_emptyStore]
  simp [toQueued]

theorem c9_hist_state (uid prompt lng now : String) :
    getChatHistory (c9Store uid prompt lng now)
      = [{ id := uid, role := "user", text := prompt, status := some "pending" }] := by
  unfold c9Store
  rw [getChatHistory_addMessageToQueue, getChatHistory_saveChatHistory]

theorem c9_drain_hist (uid prompt lng now c : String) (cs : List String) :
    (drainQueue (c9Backend c cs) now () (c9Store uid prompt lng now)
        [{ id := uid, role := "user", text := prompt, status := some "pending" }]
        [{ id := uid, prompt := prompt, fileData := none, fileName := none,
           fileMimeType := none, lang := lng }]).2.2
      = [{ id := uid, role := "user", text := prompt, status := some "failed" },
         { id := uid ++ "-model", role := "model",
           text := cs.foldl (fun a b => a ++ b) c }] := by
  simp only [drainQueue, processQueuedMessage, c9Backend]
  rw [syncChunks_snd_first]
  simp [findIdx, modifyAt]

/-- C9: when the backend stream for a queued item yields at least one token
and then errors, the partially streamed model-role message remains in the
final persisted transcript (text equal to the concatenation of the yielded
tokens) while the user message's status is set to `"failed"`; the failed user
message is thus followed by a partial model reply, and the queue is cleared
anyway. -/
theorem c9_partial_reply_persists (uid prompt lng now c : String) (cs : List String) :
    getChatHistory (c9Final uid prompt lng now c cs)
      = [{ id := uid, role := "user", text := prompt, status := some "failed" },
         { id := uid ++ "-model", role := "model",
           text := cs.foldl (fun a b => a ++ b) c }]
    ∧ getMessageQueue (c9Final uid prompt lng now c cs) = [] := by
  constructor
  · simp only [c9Final, syncOfflineMessages]
    rw [c9_queue_state, c9_hist_state]
    simp
    rw [getChatHistory_clearMessageQueue, getChatHistory_saveChatHistory]
    exact c9_drain_hist uid prompt lng now c cs
  · simp only [c9Final, syncOfflineMessages]
    rw [c9_queue_state]
    simp
    exact getMessageQueue_clearMessageQueue _

/-- Witness for C10 at a concrete input: updating only the language keeps the
stored name and profile image. -/
theorem c10_profile_merge_witness :
    (mergeProfile ((getUserProfile c10St).getD emptyProfile) c10P).name
        = ((getUserProfile c10St).getD emptyProfile).name
    ∧ (mergeProfile ((getUserProfile c10St).getD emptyProfile) c10P).profileImage
        = ((getUserProfile c10St).getD emptyProfile).profileImage :=
  ⟨(c10_profile_merge c10St c10P).2.1 rfl,
   (c10_profile_merge c10St c10P).2.2.2.2.2 rfl⟩

end AG
